import Mathlib

/-!
Verification development for the ztake telegram webhook bot
(`render-webhook-bot.py`).  The Python source is shallowly embedded:
text is `List Char`, Python floats arising from decimal literals are
modelled as exact rationals `ℚ`, machine/network effects are passed in
as explicit oracle values, and the process-global configuration state is
threaded explicitly.
-/

namespace Ztake

/-! ## A small backtracking regex engine

`re.findall(pattern, text, re.IGNORECASE)` is modelled for the fixed
patterns used by the bot.  An `RE` is matched anchored at the start of a
string; `reMatch` returns every way to match, in Python's backtracking
priority order (alternatives left first, repetitions greedy longest
first, optional pieces present first), so the head of the list is the
match Python's engine produces.  `findall` scans left to right,
restarting after each non-overlapping match, and returns the capture of
the single group of each pattern. -/

inductive RE where
  | lit : List Char → RE
  | cls : (Char → Bool) → Nat → Option Nat → RE
  | grp : RE → RE
  | seq : RE → RE → RE
  | alt : RE → RE → RE
  | opt : RE → RE

/-- Case-insensitive character comparison (`re.IGNORECASE`). -/
def lowerEq (a b : Char) : Bool := a.toLower == b.toLower

/-- Match a literal (case-insensitively) at the start of `s`, returning
the consumed characters and the rest. -/
def matchLit : List Char → List Char → Option (List Char × List Char)
  | [], s => some ([], s)
  | _ :: _, [] => none
  | p :: ps, c :: cs =>
    if lowerEq p c then (matchLit ps cs).map (fun u => (c :: u.1, u.2)) else none

/-- All ways to match between `mn` and `mx` (unbounded when `none`)
repetitions of the character class `p`, greedy (longest first). -/
def clsSplits (p : Char → Bool) (mn : Nat) (mx : Option Nat) (s : List Char) :
    List (List Char × List Char) :=
  let run := (s.takeWhile p).length
  let k := match mx with
    | some m => min m run
    | none => run
  (((List.range (k + 1)).reverse).filter (fun c => mn ≤ c)).map
    (fun c => (s.take c, s.drop c))

/-- All anchored matches of `r` against `s`, in backtracking priority
order.  Each entry is (consumed, rest, capture of the group if any). -/
def reMatch : RE → List Char → List (List Char × List Char × Option (List Char))
  | RE.lit l, s =>
    match matchLit l s with
    | some u => [(u.1, u.2, none)]
    | none => []
  | RE.cls p mn mx, s => (clsSplits p mn mx s).map (fun u => (u.1, u.2, none))
  | RE.grp r, s => (reMatch r s).map (fun x => (x.1, x.2.1, some x.1))
  | RE.seq r1 r2, s =>
    (reMatch r1 s).flatMap (fun x =>
      (reMatch r2 x.2.1).map (fun y =>
        (x.1 ++ y.1, y.2.1, match x.2.2 with | some g => some g | none => y.2.2)))
  | RE.alt r1 r2, s => reMatch r1 s ++ reMatch r2 s
  | RE.opt r, s => reMatch r s ++ [([], s, none)]

/-- Scan `s` left to right, collecting group captures of non-overlapping
matches, Python `re.findall` style.  `fuel` bounds the recursion; it is
instantiated with `s.length + 1`, which is enough since every step
either consumes part of `s` or advances one character. -/
def findAllAux (r : RE) : Nat → List Char → List (List Char)
  | 0, _ => []
  | Nat.succ fuel, s =>
    match (reMatch r s).head? with
    | some x =>
      let caps := match x.2.2 with | some g => [g] | none => []
      match s with
      | [] => caps
      | _ :: tail => if x.1.isEmpty then caps ++ findAllAux r fuel tail
                     else caps ++ findAllAux r fuel x.2.1
    | none =>
      match s with
      | [] => []
      | _ :: tail => findAllAux r fuel tail

def findall (r : RE) (s : List Char) : List (List Char) :=
  findAllAux r (s.length + 1) s

/-! ## The bot's concrete patterns -/

/-- Python `\s` (ASCII fragment, sufficient for the message alphabet). -/
def isWs (c : Char) : Bool :=
  c == ' ' || c == '\t' || c == '\n' || c == '\r' || c == '\x0b' || c == '\x0c'

def isDigitC (c : Char) : Bool := c.isDigit

/-- Python `[\d,]`. -/
def isDigitComma (c : Char) : Bool := c.isDigit || c == ','

/-- `\s*` -/
def ws0 : RE := RE.cls isWs 0 none

/-- `\s+` -/
def ws1 : RE := RE.cls isWs 1 none

/-- A single optional character, e.g. `\.?` or `:?`. -/
def optChar (c : Char) : RE := RE.cls (fun x => x == c) 0 (some 1)

/-- `[:\-]?` -/
def colonDash : RE := RE.cls (fun x => x == ':' || x == '-') 0 (some 1)

def litS (s : String) : RE := RE.lit s.toList

def seqL (l : List RE) : RE := l.foldr RE.seq (RE.lit [])

/-- `(\d{8,20})` -/
def refNumGrp : RE := RE.grp (RE.cls isDigitC 8 (some 20))

/-- `(?:no\.?|number)?` -/
def noNumberOpt : RE :=
  RE.opt (RE.alt (RE.seq (litS "no") (optChar '.')) (litS "number"))

/-- `UPI\s*Ref(?:erence)?\s*(?:no\.?|number)?\s*[:\-]?\s*(\d{8,20})` -/
def upiRefPattern : RE :=
  seqL [litS "UPI", ws0, litS "Ref", RE.opt (litS "erence"), ws0,
        noNumberOpt, ws0, colonDash, ws0, refNumGrp]

/-- `Ref(?:erence)?\s*(?:no\.?|number)?\s*[:\-]?\s*(\d{8,20})` -/
def refPattern : RE :=
  seqL [litS "Ref", RE.opt (litS "erence"), ws0,
        noNumberOpt, ws0, colonDash, ws0, refNumGrp]

/-- `Transaction\s*ID[:\-]?\s*(\d{8,20})` -/
def transactionIdPattern : RE :=
  seqL [litS "Transaction", ws0, litS "ID", colonDash, ws0, refNumGrp]

/-- `Txn\s*ID[:\-]?\s*(\d{8,20})` -/
def txnIdPattern : RE :=
  seqL [litS "Txn", ws0, litS "ID", colonDash, ws0, refNumGrp]

/-- `([\d,]+(?:\.\d{2})?)` -/
def amountGrp : RE :=
  RE.grp (RE.seq (RE.cls isDigitComma 1 none)
    (RE.opt (RE.seq (RE.lit ['.']) (RE.cls isDigitC 2 (some 2)))))

/-- `₹\s*([\d,]+(?:\.\d{2})?)` -/
def rupeeSymPattern : RE := seqL [litS "₹", ws0, amountGrp]

/-- `Rs\.?\s*([\d,]+(?:\.\d{2})?)` -/
def rsPattern : RE := seqL [litS "Rs", optChar '.', ws0, amountGrp]

/-- `INR\s*([\d,]+(?:\.\d{2})?)` -/
def inrPattern : RE := seqL [litS "INR", ws0, amountGrp]

/-- `\$\s*([\d,]+(?:\.\d{2})?)` -/
def dollarPattern : RE := seqL [litS "$", ws0, amountGrp]

/-- `amount\s*:?\s*([\d,]+(?:\.\d{2})?)` -/
def amountLabelPattern : RE := seqL [litS "amount", ws0, optChar ':', ws0, amountGrp]

/-- `([\d,]+(?:\.\d{2})?)\s*(?:rupees|rs)` -/
def rupeesSuffixPattern : RE :=
  seqL [amountGrp, ws0, RE.alt (litS "rupees") (litS "rs")]

/-- `credited\s+for\s+Rs\.?\s*([\d,]+(?:\.\d{2})?)` -/
def creditedPattern : RE :=
  seqL [litS "credited", ws1, litS "for", ws1, litS "Rs", optChar '.', ws0, amountGrp]

/-- `debited\s+for\s+Rs\.?\s*([\d,]+(?:\.\d{2})?)` -/
def debitedPattern : RE :=
  seqL [litS "debited", ws1, litS "for", ws1, litS "Rs", optChar '.', ws0, amountGrp]

/-- The pattern list of `extract_reference_numbers`, in source order. -/
def refPatterns : List RE :=
  [upiRefPattern, refPattern, transactionIdPattern, txnIdPattern]

/-- The pattern list of `extract_money_amounts`, in source order. -/
def amountPatterns : List RE :=
  [rupeeSymPattern, rsPattern, inrPattern, dollarPattern,
   amountLabelPattern, rupeesSuffixPattern, creditedPattern, debitedPattern]

/-! ## Deduplication (the `seen` / `unique` loop of both extractors)

The Python loop keeps a `seen` set and appends each element to the
output the first time it is encountered. -/

def dedupFirstAux {α : Type} [DecidableEq α] (seen : List α) : List α → List α
  | [] => []
  | a :: rest =>
    if a ∈ seen then dedupFirstAux seen rest
    else a :: dedupFirstAux (a :: seen) rest

def dedupFirst {α : Type} [DecidableEq α] (l : List α) : List α :=
  dedupFirstAux [] l

/-- Index of the first occurrence of `a` in `l` (length of `l` when
absent); used to state the first-occurrence-order invariant. -/
def firstIdx {α : Type} [DecidableEq α] : List α → α → Nat
  | [], _ => 0
  | b :: t, a => if a = b then 0 else firstIdx t a + 1

/-! ## Python float parsing of the captured amount strings

`float(match.replace(',', ''))` — after comma stripping a capture is of
the shape `digits*` optionally followed by `. digits`, and `float`
accepts it exactly when it still contains at least one digit; an empty
string raises `ValueError` (the match is dropped).  Values are modelled
as exact rationals. -/

def digitsToNat (l : List Char) : Nat :=
  l.foldl (fun n c => 10 * n + (c.toNat - 48)) 0

def parsePyFloat (s : List Char) : Option ℚ :=
  let intPart := s.takeWhile (fun c => c ≠ '.')
  match s.dropWhile (fun c => c ≠ '.') with
  | [] =>
    if intPart ≠ [] ∧ intPart.all Char.isDigit then some (digitsToNat intPart)
    else none
  | _ :: fracPart =>
    if (intPart ≠ [] ∨ fracPart ≠ []) ∧ intPart.all Char.isDigit ∧
        fracPart.all Char.isDigit then
      some ((digitsToNat intPart : ℚ) +
        (digitsToNat fracPart : ℚ) / (10 ^ fracPart.length))
    else none

/-! ## The extractors (`TransactionBot.extract_reference_numbers`,
`TransactionBot.extract_money_amounts`) -/

/-- The raw match stream of `extract_reference_numbers`: all captures of
every pattern, pattern by pattern in list order (the `matches` list
before deduplication). -/
def rawRefMatches (text : List Char) : List (List Char) :=
  refPatterns.flatMap (fun p => findall p text)

def extract_reference_numbers (text : List Char) : List (List Char) :=
  dedupFirst (rawRefMatches text)

/-- The raw value stream of `extract_money_amounts`: all captures of
every pattern in order, comma-stripped and float-parsed, parse failures
dropped (the `amounts` list before deduplication). -/
def rawAmountMatches (text : List Char) : List ℚ :=
  (amountPatterns.flatMap (fun p => findall p text)).filterMap
    (fun m => parsePyFloat (m.filter (fun c => c ≠ ',')))

def extract_money_amounts (text : List Char) : List ℚ :=
  dedupFirst (rawAmountMatches text)

/-! ## Properties of the dedup loop -/

theorem mem_dedupFirstAux {α : Type} [DecidableEq α] {a : α} :
    ∀ (l seen : List α), a ∈ dedupFirstAux seen l ↔ a ∈ l ∧ a ∉ seen := by
  intro l
  induction l with
  | nil => intro seen; simp [dedupFirstAux]
  | cons x t ih =>
    intro seen
    by_cases hx : x ∈ seen
    · simp only [dedupFirstAux, if_pos hx, ih, List.mem_cons]
      constructor
      · rintro ⟨h1, h2⟩; exact ⟨Or.inr h1, h2⟩
      · rintro ⟨h1 | h1, h2⟩
        · exact absurd (h1 ▸ hx) h2
        · exact ⟨h1, h2⟩
    · simp only [dedupFirstAux, if_neg hx, List.mem_cons, ih]
      constructor
      · rintro (rfl | ⟨h1, h2⟩)
        · exact ⟨Or.inl rfl, hx⟩
        · exact ⟨Or.inr h1, fun hs => h2 (Or.inr hs)⟩
      · rintro ⟨rfl | h1, h2⟩
        · exact Or.inl rfl
        · by_cases hax : a = x
          · exact Or.inl hax
          · exact Or.inr ⟨h1, fun hs => (hs.elim hax h2 : False)⟩

theorem dedupFirstAux_nodup {α : Type} [DecidableEq α] :
    ∀ (l seen : List α), (dedupFirstAux seen l).Nodup := by
  intro l
  induction l with
  | nil => intro seen; simp [dedupFirstAux]
  | cons x t ih =>
    intro seen
    by_cases hx : x ∈ seen
    · simpa only [dedupFirstAux, if_pos hx] using ih seen
    · simp only [dedupFirstAux, if_neg hx, List.nodup_cons]
      refine ⟨fun hmem => ?_, ih (x :: seen)⟩
      exact ((mem_dedupFirstAux t (x :: seen)).1 hmem).2 (List.mem_cons_self x seen)

theorem dedupFirstAux_pairwise_firstIdx {α : Type} [DecidableEq α] :
    ∀ (l seen : List α),
      (dedupFirstAux seen l).Pairwise (fun a b => firstIdx l a < firstIdx l b) := by
  intro l
  induction l with
  | nil => intro seen; simp [dedupFirstAux]
  | cons x t ih =>
    intro seen
    by_cases hx : x ∈ seen
    · simp only [dedupFirstAux, if_pos hx]
      refine List.Pairwise.imp_of_mem ?_ (ih seen)
      intro a b ha hb hab
      have ha2 := (mem_dedupFirstAux t seen).1 ha
      have hb2 := (mem_dedupFirstAux t seen).1 hb
      have hax : a ≠ x := fun h => ha2.2 (h ▸ hx)
      have hbx : b ≠ x := fun h => hb2.2 (h ▸ hx)
      simpa [firstIdx, hax, hbx] using hab
    · simp only [dedupFirstAux, if_neg hx]
      rw [List.pairwise_cons]
      constructor
      · intro b hb
        have hb2 := (mem_dedupFirstAux t (x :: seen)).1 hb
        have hbx : b ≠ x := fun h => hb2.2 (by simp [h])
        simp [firstIdx, hbx]
      · refine List.Pairwise.imp_of_mem ?_ (ih (x :: seen))
        intro a b ha hb hab
        have ha2 := (mem_dedupFirstAux t (x :: seen)).1 ha
        have hb2 := (mem_dedupFirstAux t (x :: seen)).1 hb
        have hax : a ≠ x := fun h => ha2.2 (by simp [h])
        have hbx : b ≠ x := fun h => hb2.2 (by simp [h])
        simpa [firstIdx, hax, hbx] using hab

theorem dedupFirst_nodup {α : Type} [DecidableEq α] (l : List α) :
    (dedupFirst l).Nodup := dedupFirstAux_nodup l []

theorem dedupFirst_pairwise {α : Type} [DecidableEq α] (l : List α) :
    (dedupFirst l).Pairwise (fun a b => firstIdx l a < firstIdx l b) :=
  dedupFirstAux_pairwise_firstIdx l []

theorem mem_dedupFirst {α : Type} [DecidableEq α] {a : α} (l : List α) :
    a ∈ dedupFirst l ↔ a ∈ l := by
  simpa using mem_dedupFirstAux l ([] : List α)

/-! ## Claims about the extractors -/

/-- The scenario-B input text. -/
def scenarioBText : List Char :=
  "credited for Rs.2.00 on 12-09-25 and debited from a/c no. XX0076 (UPI Ref no 690518190930)".toList

theorem parse_two_hundredths : parsePyFloat ['2', '.', '0', '0'] = some (2 : ℚ) := by
  rw [show parsePyFloat ['2', '.', '0', '0'] =
      some ((digitsToNat ['2'] : ℚ) + (digitsToNat ['0', '0'] : ℚ) / (10 ^ 2)) from rfl]
  have h2 : '2'.toNat - 48 = 2 := by decide
  have h0 : '0'.toNat - 48 = 0 := by decide
  norm_num [digitsToNat, List.foldl, h2, h0]

theorem scenarioB_rawAmountMatches :
    rawAmountMatches scenarioBText = [(2 : ℚ), (2 : ℚ)] := by
  have h : (amountPatterns.flatMap (fun p => findall p scenarioBText)).map
      (fun m => m.filter (fun c => c ≠ ',')) = ["2.00".toList, "2.00".toList] := by
    decide
  rw [rawAmountMatches,
    show (fun m : List Char => parsePyFloat (m.filter (fun c => c ≠ ','))) =
      (parsePyFloat ∘ fun m : List Char => m.filter (fun c => c ≠ ',')) from rfl,
    ← List.filterMap_map, h]
  simp [List.filterMap_cons, parse_two_hundredths]

theorem scenarioB_amounts : extract_money_amounts scenarioBText = [(2 : ℚ)] := by
  rw [extract_money_amounts, scenarioB_rawAmountMatches]
  simp [dedupFirst, dedupFirstAux]

/-- Claim C1: on the scenario-B text, `extract_reference_numbers` returns
exactly `["690518190930"]` and `extract_money_amounts` returns exactly
`[2.00]`; the raw match streams show that the UPI-Ref pattern and the
bare Ref pattern both capture `690518190930`, and the generic Rs pattern
and the credited-for-Rs pattern both capture `2.00`, the duplicates being
collapsed by deduplication. -/
theorem scenarioB_extraction :
    extract_reference_numbers scenarioBText = ["690518190930".toList] ∧
    extract_money_amounts scenarioBText = [(2 : ℚ)] ∧
    rawRefMatches scenarioBText =
      ["690518190930".toList, "690518190930".toList] ∧
    findall upiRefPattern scenarioBText = ["690518190930".toList] ∧
    findall refPattern scenarioBText = ["690518190930".toList] ∧
    rawAmountMatches scenarioBText = [(2 : ℚ), (2 : ℚ)] ∧
    (findall rsPattern scenarioBText).map
      (fun m => parsePyFloat (m.filter (fun c => c ≠ ','))) = [some (2 : ℚ)] ∧
    (findall creditedPattern scenarioBText).map
      (fun m => parsePyFloat (m.filter (fun c => c ≠ ','))) = [some (2 : ℚ)] := by
  refine ⟨by decide, scenarioB_amounts, by decide, by decide, by decide,
    scenarioB_rawAmountMatches, ?_, ?_⟩
  · have h : (findall rsPattern scenarioBText).map
        (fun m => m.filter (fun c => c ≠ ',')) = [['2', '.', '0', '0']] := by decide
    rw [show (fun m : List Char => parsePyFloat (m.filter (fun c => c ≠ ','))) =
        (parsePyFloat ∘ fun m : List Char => m.filter (fun c => c ≠ ',')) from rfl,
      ← List.map_map, h]
    simp [parse_two_hundredths]
  · have h : (findall creditedPattern scenarioBText).map
        (fun m => m.filter (fun c => c ≠ ',')) = [['2', '.', '0', '0']] := by decide
    rw [show (fun m : List Char => parsePyFloat (m.filter (fun c => c ≠ ','))) =
        (parsePyFloat ∘ fun m : List Char => m.filter (fun c => c ≠ ',')) from rfl,
      ← List.map_map, h]
    simp [parse_two_hundredths]

/-- Claim C2: for every input text, both extractor outputs are free of
duplicates (string equality for reference numbers, numeric equality for
amounts), contain exactly the elements of the corresponding raw match
stream, and list them in order of strictly increasing first-occurrence
position in that raw stream (all matches of pattern 1 in text order,
then pattern 2, and so on). -/
theorem extraction_dedup_invariant (text : List Char) :
    (extract_reference_numbers text).Nodup ∧
    (extract_reference_numbers text).Pairwise
      (fun a b => firstIdx (rawRefMatches text) a < firstIdx (rawRefMatches text) b) ∧
    (∀ a, a ∈ extract_reference_numbers text ↔ a ∈ rawRefMatches text) ∧
    (extract_money_amounts text).Nodup ∧
    (extract_money_amounts text).Pairwise
      (fun a b => firstIdx (rawAmountMatches text) a < firstIdx (rawAmountMatches text) b) ∧
    (∀ q, q ∈ extract_money_amounts text ↔ q ∈ rawAmountMatches text) :=
  ⟨dedupFirst_nodup _, dedupFirst_pairwise _, fun _ => mem_dedupFirst _,
   dedupFirst_nodup _, dedupFirst_pairwise _, fun _ => mem_dedupFirst _⟩

/-! ## Python values and the authorization check

`chat_id` / `authorized_chat_id` arrive as `None`, a native integer
(JSON number, Telegram chat id) or a string; `PyVal` models exactly
these.  `pyTruthy` is Python truthiness on them and `pyStr` is `str(·)`. -/

inductive PyVal where
  | none : PyVal
  | int : Int → PyVal
  | str : String → PyVal
deriving DecidableEq

def pyTruthy : PyVal → Bool
  | PyVal.none => false
  | PyVal.int n => n != 0
  | PyVal.str s => s != ""

def pyStr : PyVal → String
  | PyVal.none => "None"
  | PyVal.int n => toString n
  | PyVal.str s => s

/-- `TransactionBot.is_authorized_chat` — first argument is the bot's
`self.authorized_chat_id`, second the candidate `chat_id`. -/
def is_authorized_chat (authorized_chat_id : PyVal) (chat_id : PyVal) : Bool :=
  if !pyTruthy authorized_chat_id then false
  else pyStr chat_id == pyStr authorized_chat_id

/-- Claim C3, counterexample: with the configured authorized chat id
being the integer `0` — which is neither absent (`None`) nor the empty
string — and the candidate chat id also the integer `0`, the string
representations of the two identifiers coincide, yet
`is_authorized_chat` returns `false`; so "otherwise it returns true
exactly when the string representations are equal" fails. -/
theorem authorized_zero_counterexample :
    PyVal.int 0 ≠ PyVal.none ∧ PyVal.int 0 ≠ PyVal.str "" ∧
    pyStr (PyVal.int 0) = pyStr (PyVal.int 0) ∧
    is_authorized_chat (PyVal.int 0) (PyVal.int 0) = false := by
  decide

/-- Claim C3 as amended: `is_authorized_chat` returns `false` whenever
the authorized chat id is Python-falsy — absent (`None`), the empty
string, or the integer `0` — and otherwise returns `true` exactly when
the string representation of the candidate equals the string
representation of the authorized id (so a native integer candidate and a
textual authorized id with the same digits are authorized). -/
theorem is_authorized_chat_spec (auth x : PyVal) :
    ((auth = PyVal.none ∨ auth = PyVal.str "" ∨ auth = PyVal.int 0) →
      is_authorized_chat auth x = false) ∧
    (auth ≠ PyVal.none → auth ≠ PyVal.str "" → auth ≠ PyVal.int 0 →
      (is_authorized_chat auth x = true ↔ pyStr x = pyStr auth)) := by
  constructor
  · rintro (rfl | rfl | rfl) <;> rfl
  · intro h1 h2 h3
    have ht : pyTruthy auth = true := by
      cases auth with
      | none => exact absurd rfl h1
      | int n =>
        have : n ≠ 0 := fun h => h3 (by rw [h])
        simpa [pyTruthy] using this
      | str s =>
        have : s ≠ "" := fun h => h2 (by rw [h])
        simpa [pyTruthy] using this
    simp [is_authorized_chat, ht]

theorem is_authorized_chat_spec_witness :
    ((PyVal.str "5" = PyVal.none ∨ PyVal.str "5" = PyVal.str "" ∨
        PyVal.str "5" = PyVal.int 0) →
      is_authorized_chat (PyVal.str "5") (PyVal.int 5) = false) ∧
    (is_authorized_chat (PyVal.str "5") (PyVal.int 5) = true ↔
      pyStr (PyVal.int 5) = pyStr (PyVal.str "5")) :=
  ⟨(is_authorized_chat_spec (PyVal.str "5") (PyVal.int 5)).1,
   (is_authorized_chat_spec (PyVal.str "5") (PyVal.int 5)).2
     (by decide) (by decide) (by decide)⟩

/-- Claim C10: an authorized chat id that is any Python-falsy value —
`None`, the empty string, or the integer `0` — authorizes nothing: in
particular `0` is treated as absent and does not even authorize a
candidate chat id of `0`, whose string representation is identical. -/
theorem falsy_authorized_id_rejects_all (x : PyVal) :
    is_authorized_chat PyVal.none x = false ∧
    is_authorized_chat (PyVal.str "") x = false ∧
    is_authorized_chat (PyVal.int 0) x = false ∧
    is_authorized_chat (PyVal.int 0) (PyVal.int 0) = false ∧
    pyStr (PyVal.int 0) = pyStr (PyVal.int 0) :=
  ⟨rfl, rfl, rfl, rfl, rfl⟩

/-! ## The relay client (`TransactionBot.call_external_api`)

The HTTP world is an oracle: either a response with a status code, a raw
body text and a parsed JSON body (of an abstract type `J`, since the
code treats `response.json()` opaquely), or a timeout
(`requests.exceptions.Timeout`), or another network-level exception
(`requests.exceptions.RequestException`). -/

structure TransactionBot where
  token : PyVal
  api_endpoint : List Char
  api_key : List Char
  /-- The vendor id is modelled as the already-parsed integer, so
  `int(self.vendor_id) if self.vendor_id else 3` becomes
  `if vendor_id ≠ 0 then vendor_id else 3`. -/
  vendor_id : Int
  authorized_chat_id : PyVal
deriving DecidableEq

inductive HttpOutcome (J : Type) where
  | response (status : Nat) (text : List Char) (json : J)
  | timeout
  | netError (msg : List Char)
deriving DecidableEq

/-- The payload dict `{'utr': ..., 'amount': ..., 'vendor_id': ...}`
sent by `requests.post(self.api_endpoint, json=payload, ...)`. -/
structure RelayPayload where
  utr : List Char
  amount : ℚ
  vendor_id : Int
deriving DecidableEq

/-- The dict returned by `call_external_api` (the `headers` diagnostic
key of the non-200 branch is not modelled). -/
structure ApiCallResult (J : Type) where
  success : Bool
  data : Option J
  error : Option (List Char)
  response : Option (List Char)
  status_code : Option Nat
deriving DecidableEq

def timeoutMsg : List Char := "API request timed out".toList

def netErrorPrefix : List Char := "Network error: ".toList

/-- `TransactionBot.call_external_api`, returning both the payload that
was posted and the classified result dict. -/
def call_external_api {J : Type} (bot : TransactionBot)
    (reference_numbers : List (List Char)) (amounts : List ℚ)
    (outcome : HttpOutcome J) : RelayPayload × ApiCallResult J :=
  let ref_value := match reference_numbers with
    | [] => []
    | r :: _ => r
  let amount_value := match amounts with
    | [] => (0 : ℚ)
    | a :: _ => a
  let vendor_id_value := if bot.vendor_id ≠ 0 then bot.vendor_id else 3
  let payload : RelayPayload :=
    { utr := ref_value, amount := amount_value, vendor_id := vendor_id_value }
  let result : ApiCallResult J := match outcome with
    | HttpOutcome.response status text json =>
      if status == 200 then
        { success := true, data := some json, error := Option.none,
          response := Option.none, status_code := Option.none }
      else
        { success := false, data := Option.none,
          error := some (("API returned status ".toList) ++ (toString status).toList),
          response := some (text.take 500), status_code := some status }
    | HttpOutcome.timeout =>
      { success := false, data := Option.none, error := some timeoutMsg,
        response := Option.none, status_code := Option.none }
    | HttpOutcome.netError msg =>
      { success := false, data := Option.none,
        error := some (netErrorPrefix ++ msg),
        response := Option.none, status_code := Option.none }
  (payload, result)

/-- The four outcome classes of a relay attempt. -/
inductive RelayTag where
  | ok : RelayTag
  | timedOut : RelayTag
  | networkError : RelayTag
  | nonOkStatus : RelayTag
deriving DecidableEq

/-- How a returned result dict is recognised as belonging to one of the
four classes. -/
def resultTagged {J : Type} (r : ApiCallResult J) : RelayTag → Prop
  | RelayTag.ok => r.success = true
  | RelayTag.timedOut =>
    r.success = false ∧ r.status_code = Option.none ∧ r.error = some timeoutMsg
  | RelayTag.networkError =>
    r.success = false ∧ r.status_code = Option.none ∧
      (r.error.getD []).take netErrorPrefix.length = netErrorPrefix
  | RelayTag.nonOkStatus =>
    r.success = false ∧ ∃ s, r.status_code = some s ∧ s ≠ 200

/-- Claim C5: every relay attempt is classified into exactly one of four
outcomes — HTTP 200 yields a success dict carrying the parsed JSON body,
a timeout yields the timeout failure, any other network-level exception
yields the network-error failure, and any other status code yields the
non-OK-status failure carrying the status code and a body excerpt of at
most 500 characters. -/
theorem relay_outcome_classification {J : Type} (bot : TransactionBot)
    (refs : List (List Char)) (amts : List ℚ) (o : HttpOutcome J) :
    (∀ t j, o = HttpOutcome.response 200 t j →
      (call_external_api bot refs amts o).2 =
        { success := true, data := some j, error := Option.none,
          response := Option.none, status_code := Option.none }) ∧
    (o = HttpOutcome.timeout →
      (call_external_api bot refs amts o).2 =
        { success := false, data := Option.none, error := some timeoutMsg,
          response := Option.none, status_code := Option.none }) ∧
    (∀ m, o = HttpOutcome.netError m →
      (call_external_api bot refs amts o).2 =
        { success := false, data := Option.none,
          error := some (netErrorPrefix ++ m),
          response := Option.none, status_code := Option.none }) ∧
    (∀ s t j, o = HttpOutcome.response s t j → s ≠ 200 →
      (call_external_api bot refs amts o).2 =
        { success := false, data := Option.none,
          error := some (("API returned status ".toList) ++ (toString s).toList),
          response := some (t.take 500), status_code := some s } ∧
      (t.take 500).length ≤ 500) ∧
    (∃! tag, resultTagged (call_external_api bot refs amts o).2 tag) := by
  refine ⟨?_, ?_, ?_, ?_, ?_⟩
  · rintro t j rfl
    simp [call_external_api]
  · rintro rfl
    simp [call_external_api]
  · rintro m rfl
    simp [call_external_api]
  · rintro s t j rfl hs
    have hbeq : (s == 200) = false := by simpa using hs
    constructor
    · simp [call_external_api, hbeq]
    · simp
  · cases o with
    | response s t j =>
      by_cases hs : s = 200
      · subst hs
        refine ⟨RelayTag.ok, by simp [call_external_api, resultTagged], ?_⟩
        intro tag htag
        cases tag with
        | ok => rfl
        | timedOut => simp [call_external_api, resultTagged] at htag
        | networkError => simp [call_external_api, resultTagged] at htag
        | nonOkStatus => simp [call_external_api, resultTagged] at htag
      · have hbeq : (s == 200) = false := by simpa using hs
        refine ⟨RelayTag.nonOkStatus,
          ⟨by simp [call_external_api, hbeq], s, by simp [call_external_api, hbeq], hs⟩, ?_⟩
        intro tag htag
        cases tag with
        | ok => simp [call_external_api, hbeq, resultTagged] at htag
        | timedOut =>
          exact absurd htag.2.1 (by simp [call_external_api, hbeq])
        | networkError =>
          exact absurd htag.2.1 (by simp [call_external_api, hbeq])
        | nonOkStatus => rfl
    | timeout =>
      refine ⟨RelayTag.timedOut, by simp [call_external_api, resultTagged], ?_⟩
      intro tag htag
      cases tag with
      | ok => simp [call_external_api, resultTagged] at htag
      | timedOut => rfl
      | networkError =>
        have h := htag.2.2
        simp only [call_external_api, resultTagged] at h
        exact absurd h (by decide)
      | nonOkStatus =>
        obtain ⟨s, hs, -⟩ := htag.2
        simp [call_external_api] at hs
    | netError m =>
      refine ⟨RelayTag.networkError,
        ⟨by simp [call_external_api], by simp [call_external_api], ?_⟩, ?_⟩
      · show ((some (netErrorPrefix ++ m)).getD []).take netErrorPrefix.length =
          netErrorPrefix
        simp
      · intro tag htag
        cases tag with
        | ok => simp [call_external_api, resultTagged] at htag
        | timedOut =>
          have h := htag.2.2
          simp only [call_external_api, resultTagged, Option.some.injEq] at h
          have hlen := congrArg List.length h
          simp [netErrorPrefix, timeoutMsg] at hlen
          have htake := congrArg (List.take netErrorPrefix.length) h
          rw [List.take_left] at htake
          revert htake
          have : m.length = 6 := by omega
          exact fun htake => absurd htake (by
            rw [show List.take netErrorPrefix.length timeoutMsg =
              "API request tim".toList from by decide]
            decide)
        | networkError => rfl
        | nonOkStatus =>
          obtain ⟨s, hs, -⟩ := htag.2
          simp [call_external_api] at hs

def sampleBot : TransactionBot :=
  { token := PyVal.none, api_endpoint := [], api_key := [],
    vendor_id := 3, authorized_chat_id := PyVal.none }

theorem relay_outcome_classification_witness :
    (call_external_api sampleBot [] []
        (HttpOutcome.response 404 "oops".toList ())).2 =
      { success := false, data := Option.none,
        error := some (("API returned status ".toList) ++ (toString 404).toList),
        response := some ("oops".toList.take 500), status_code := some 404 } ∧
    ("oops".toList.take 500).length ≤ 500 :=
  (relay_outcome_classification sampleBot [] []
    (HttpOutcome.response 404 "oops".toList ())).2.2.2.1
    404 "oops".toList () rfl (by decide)

/-- Claim C8: the relay payload is built from only the first element of
each extracted sequence — `utr` is the first reference number (the empty
string when there is none), `amount` is the first amount (`0.0` when
there is none) — and the remaining elements never influence what is
sent. -/
theorem relay_payload_uses_first {J : Type} (bot : TransactionBot)
    (o : HttpOutcome J) (refs : List (List Char)) (amts : List ℚ) :
    ((call_external_api bot [] amts o).1.utr = []) ∧
    (∀ r rs, (call_external_api bot (r :: rs) amts o).1.utr = r) ∧
    ((call_external_api bot refs [] o).1.amount = 0) ∧
    (∀ a as, (call_external_api bot refs (a :: as) o).1.amount = a) ∧
    (∀ refs2 amts2, refs.head? = refs2.head? → amts.head? = amts2.head? →
      (call_external_api bot refs amts o).1 = (call_external_api bot refs2 amts2 o).1) := by
  refine ⟨rfl, fun r rs => rfl, ?_, fun a as => rfl, ?_⟩
  · cases refs <;> rfl
  · intro refs2 amts2 h1 h2
    cases refs <;> cases refs2 <;> cases amts <;> cases amts2 <;>
      simp_all [call_external_api]

theorem relay_payload_uses_first_witness :
    (call_external_api sampleBot [['a']] [(1 : ℚ)]
        (HttpOutcome.response 200 [] ())).1 =
      (call_external_api sampleBot [['a'], ['b']] [(1 : ℚ), (2 : ℚ)]
        (HttpOutcome.response 200 [] ())).1 ∧
    (call_external_api sampleBot ([] : List (List Char)) [(1 : ℚ)]
        (HttpOutcome.response 200 [] ())).1.utr = [] :=
  ⟨(relay_payload_uses_first sampleBot (HttpOutcome.response 200 [] ())
      [['a']] [(1 : ℚ)]).2.2.2.2 [['a'], ['b']] [(1 : ℚ), (2 : ℚ)] rfl rfl,
   (relay_payload_uses_first sampleBot (HttpOutcome.response 200 [] ())
      [] [(1 : ℚ)]).1⟩

/-! ## Outbound reply texts (`TransactionBot.process_message`)

The reply strings are reproduced from the source; the Python float
format spec used for amounts (comma thousands grouping, two decimal
places) is modelled on exact rationals with round-half-up. -/

def commaGroupRev : Nat → List Char → List Char
  | _, [] => []
  | k, c :: cs =>
    if k == 3 then ',' :: c :: commaGroupRev 1 cs
    else c :: commaGroupRev (k + 1) cs

/-- Insert comma thousands separators into a digit string. -/
def commaGroup (s : List Char) : List Char :=
  (commaGroupRev 0 s.reverse).reverse

/-- The Python format spec `,.2f` on an exact nonnegative rational. -/
def formatComma2f (q : ℚ) : List Char :=
  let cents : Nat := (Int.floor (q * 100 + 1 / 2)).toNat
  let whole := cents / 100
  let frac := cents % 100
  commaGroup (toString whole).toList ++
    ('.' :: (if frac < 10 then '0' :: (toString frac).toList
             else (toString frac).toList))

/-- The "nothing found" reply of `process_message`. -/
def nothingFoundMsg : List Char :=
  ("❌ No reference numbers or amounts found.\n\n**Examples:**\n• UPI Ref no 690518190930\n• Rs.2.00\n• credited for Rs.2.00 on 12-09-25 and debited from a/c no. XX0076 (UPI Ref no 690518190930)").toList

/-- The intermediate "extracted data" reply (the joined
`response_parts`). -/
def buildExtractedMsg (reference_numbers : List (List Char))
    (amounts : List ℚ) : List Char :=
  let parts : List (List Char) :=
    ["🔍 **Extracted Data:**".toList]
    ++ (if reference_numbers.isEmpty then []
        else ["📝 Reference No: ".toList ++
          List.intercalate ", ".toList reference_numbers])
    ++ (if amounts.isEmpty then []
        else ["💰 Amounts: ".toList ++
          List.intercalate ", ".toList
            (amounts.map (fun a => '₹' :: formatComma2f a))])
    ++ ["📤 Sending to API...".toList]
  List.intercalate ['\n'] parts

/-- The final reply, built from the result dict of
`call_external_api`. -/
def buildFinalMsg {J : Type} (api_result : ApiCallResult J) : List Char :=
  if api_result.success then "✅ **Successfully sent to API!**".toList
  else
    let error_msg := "❌ **API call failed:** ".toList ++ api_result.error.getD []
    let error_msg2 := match api_result.response with
      | some resp =>
        if resp.isEmpty then error_msg
        else error_msg ++ "\n\n**Server Response:**\n```\n".toList ++
          resp.take 300 ++ "\n```".toList
      | Option.none => error_msg
    match api_result.status_code with
      | some s => error_msg2 ++ "\n**Status Code:** ".toList ++ (toString s).toList
      | Option.none => error_msg2

/-- One inbound message as `process_message` sees it: `message.get('text', '')`
and `message['chat']['id']` (sender info is only forwarded, never read). -/
structure Message where
  text : List Char
  chat_id : PyVal
deriving DecidableEq

/-- The observable actions of the dispatcher, in order: outbound
`send_message` replies and the `requests.post` relay call. -/
inductive BotEvent (J : Type) where
  | sendMessage (chat_id : PyVal) (text : List Char)
  | apiCall (payload : RelayPayload)
deriving DecidableEq

/-- `TransactionBot.process_message`: the ordered trace of replies and
relay calls produced for one inbound message. -/
def process_message {J : Type} (bot : TransactionBot) (message : Message)
    (outcome : HttpOutcome J) : List (BotEvent J) :=
  let text := message.text
  let chat_id := message.chat_id
  if !(is_authorized_chat bot.authorized_chat_id chat_id) then []
  else
    let reference_numbers := extract_reference_numbers text
    let amounts := extract_money_amounts text
    if reference_numbers.isEmpty && amounts.isEmpty then
      [BotEvent.sendMessage chat_id nothingFoundMsg]
    else
      let response_text := buildExtractedMsg reference_numbers amounts
      let pr := call_external_api bot reference_numbers amounts outcome
      [BotEvent.sendMessage chat_id response_text,
       BotEvent.apiCall pr.1,
       BotEvent.sendMessage chat_id (buildFinalMsg pr.2)]

/-- Claim C4: the dispatcher's outbound replies are exactly determined
by authorization and extraction — an unauthorized event produces zero
replies and no relay call; an authorized event with empty extraction
produces exactly one "nothing found" reply and no relay call; an
authorized event with at least one extracted reference number or amount
produces exactly two replies, the "extracted data" reply coming before
the relay call and the final reply (reporting the classified relay
outcome) after it. -/
theorem dispatcher_reply_contract {J : Type} (bot : TransactionBot)
    (message : Message) (outcome : HttpOutcome J) :
    (is_authorized_chat bot.authorized_chat_id message.chat_id = false →
      process_message bot message outcome = []) ∧
    (is_authorized_chat bot.authorized_chat_id message.chat_id = true →
      extract_reference_numbers message.text = [] →
      extract_money_amounts message.text = [] →
      process_message bot message outcome =
        [BotEvent.sendMessage message.chat_id nothingFoundMsg]) ∧
    (is_authorized_chat bot.authorized_chat_id message.chat_id = true →
      (extract_reference_numbers message.text ≠ [] ∨
        extract_money_amounts message.text ≠ []) →
      process_message bot message outcome =
        [BotEvent.sendMessage message.chat_id
          (buildExtractedMsg (extract_reference_numbers message.text)
            (extract_money_amounts message.text)),
         BotEvent.apiCall (call_external_api bot
           (extract_reference_numbers message.text)
           (extract_money_amounts message.text) outcome).1,
         BotEvent.sendMessage message.chat_id
          (buildFinalMsg (call_external_api bot
            (extract_reference_numbers message.text)
            (extract_money_amounts message.text) outcome).2)]) := by
  refine ⟨?_, ?_, ?_⟩
  · intro h
    simp [process_message, h]
  · intro h h1 h2
    simp [process_message, h, h1, h2]
  · intro h hne
    rcases hne with hne | hne <;>
      simp [process_message, h, List.isEmpty_iff, hne]

def authBot : TransactionBot :=
  { token := PyVal.none, api_endpoint := [], api_key := [],
    vendor_id := 3, authorized_chat_id := PyVal.str "g" }

def authChatMsg (text : List Char) : Message :=
  { text := text, chat_id := PyVal.str "g" }

theorem dispatcher_reply_contract_witness :
    process_message sampleBot (authChatMsg scenarioBText)
        (HttpOutcome.timeout (J := Unit)) = [] ∧
    process_message authBot (authChatMsg "hello".toList)
        (HttpOutcome.timeout (J := Unit)) =
      [BotEvent.sendMessage (PyVal.str "g") nothingFoundMsg] ∧
    process_message authBot (authChatMsg scenarioBText)
        (HttpOutcome.timeout (J := Unit)) =
      [BotEvent.sendMessage (PyVal.str "g")
        (buildExtractedMsg (extract_reference_numbers scenarioBText)
          (extract_money_amounts scenarioBText)),
       BotEvent.apiCall (call_external_api authBot
         (extract_reference_numbers scenarioBText)
         (extract_money_amounts scenarioBText)
         (HttpOutcome.timeout (J := Unit))).1,
       BotEvent.sendMessage (PyVal.str "g")
        (buildFinalMsg (call_external_api authBot
          (extract_reference_numbers scenarioBText)
          (extract_money_amounts scenarioBText)
          (HttpOutcome.timeout (J := Unit))).2)] :=
  ⟨(dispatcher_reply_contract sampleBot (authChatMsg scenarioBText)
      (HttpOutcome.timeout (J := Unit))).1 (by decide),
   (dispatcher_reply_contract authBot (authChatMsg "hello".toList)
      (HttpOutcome.timeout (J := Unit))).2.1 (by decide) (by decide) (by decide),
   (dispatcher_reply_contract authBot (authChatMsg scenarioBText)
      (HttpOutcome.timeout (J := Unit))).2.2 (by decide)
     (Or.inl (by decide))⟩

/-! ## Configuration fetching (`fetch_bot_configuration`)

The globals `BOT_TOKEN`, `AUTHORIZED_CHAT_ID`, `LAST_CONFIG_FETCH` are
threaded as an explicit state; `time.time()` is the parameter
`current_time`; the HTTP world is a `FetchOutcome` oracle.
`FetchOutcome.resp status Option.none` is a response whose body fails to
parse as JSON (`response.json()` raises, caught by the bare `except`);
`FetchOutcome.exc` is any other exception from the request. -/

structure ConfigState where
  BOT_TOKEN : PyVal
  AUTHORIZED_CHAT_ID : PyVal
  LAST_CONFIG_FETCH : Option ℚ
deriving DecidableEq

def CONFIG_CACHE_DURATION : ℚ := 300

/-- The parsed JSON body: `config_data.get('bot_token')` and
`config_data.get('chat_id')` return `None` when the key is missing. -/
structure ConfigJson where
  bot_token : Option PyVal
  chat_id : Option PyVal
deriving DecidableEq

inductive FetchOutcome where
  | resp (status : Nat) (json : Option ConfigJson)
  | exc
deriving DecidableEq

/-- Python truthiness of `LAST_CONFIG_FETCH` (`None` and the float `0.0`
are falsy). -/
def timeTruthy : Option ℚ → Bool
  | Option.none => false
  | some t => t != 0

/-- The guard `not force_refresh and LAST_CONFIG_FETCH and
(current_time - LAST_CONFIG_FETCH) < CONFIG_CACHE_DURATION`. -/
def configCacheFresh (st : ConfigState) (current_time : ℚ)
    (force_refresh : Bool) : Bool :=
  !force_refresh && timeTruthy st.LAST_CONFIG_FETCH &&
    decide (current_time - st.LAST_CONFIG_FETCH.getD 0 < CONFIG_CACHE_DURATION)

/-- `fetch_bot_configuration`: returns the Python return value, the new
global state, and whether a network request was issued. -/
def fetch_bot_configuration (st : ConfigState) (current_time : ℚ)
    (force_refresh : Bool) (net : FetchOutcome) : Bool × ConfigState × Bool :=
  if configCacheFresh st current_time force_refresh then (true, st, false)
  else
    match net with
    | FetchOutcome.resp status jsonOpt =>
      if status == 200 then
        match jsonOpt with
        | some config_data =>
          (true,
           { BOT_TOKEN := (config_data.bot_token).getD PyVal.none,
             AUTHORIZED_CHAT_ID := (config_data.chat_id).getD PyVal.none,
             LAST_CONFIG_FETCH := some current_time }, true)
        | Option.none => (false, st, true)
      else (false, st, true)
    | FetchOutcome.exc => (false, st, true)

theorem fetch_fail_unchanged (st : ConfigState) (t : ℚ) (f : Bool)
    (net : FetchOutcome)
    (h : (fetch_bot_configuration st t f net).1 = false) :
    fetch_bot_configuration st t f net = (false, st, true) := by
  revert h
  unfold fetch_bot_configuration
  by_cases hc : configCacheFresh st t f
  · simp [hc]
  · simp only [hc, Bool.false_eq_true, if_false]
    cases net with
    | exc => simp
    | resp s j =>
      by_cases hs : (s == 200) = true
      · cases j with
        | none => simp [hs]
        | some cfg => simp [hs]
      · simp [hs]

theorem fetch_networked (st : ConfigState) (t : ℚ) (f : Bool)
    (net : FetchOutcome) (h : configCacheFresh st t f = false) :
    (fetch_bot_configuration st t f net).2.2 = true := by
  unfold fetch_bot_configuration
  simp only [h, Bool.false_eq_true, if_false]
  cases net with
  | exc => rfl
  | resp s j =>
    by_cases hs : (s == 200) = true
    · cases j with
      | none => simp [hs]
      | some cfg => simp [hs]
    · simp [hs]

/-- A prior snapshot with a configured token and chat id, fetched at
time 500. -/
def stalePrior : ConfigState :=
  { BOT_TOKEN := PyVal.str "tok", AUTHORIZED_CHAT_ID := PyVal.int 42,
    LAST_CONFIG_FETCH := some 500 }

/-- Claim C6, counterexample: a 200 response whose JSON body parses but
is missing both keys is a malformed (key-missing) body, yet the fetch
returns success (`True`, not an error result) and replaces the whole
snapshot — token and chat id become `None` and `fetched_at` becomes the
current time — instead of leaving the cached snapshot unchanged. -/
theorem config_keymissing_counterexample :
    fetch_bot_configuration stalePrior 1000 true
        (FetchOutcome.resp 200
          (some { bot_token := Option.none, chat_id := Option.none })) =
      (true,
       { BOT_TOKEN := PyVal.none, AUTHORIZED_CHAT_ID := PyVal.none,
         LAST_CONFIG_FETCH := some 1000 }, true) ∧
    stalePrior.BOT_TOKEN ≠ PyVal.none ∧
    stalePrior.AUTHORIZED_CHAT_ID ≠ PyVal.none ∧
    stalePrior.LAST_CONFIG_FETCH ≠ some 1000 := by
  refine ⟨rfl, by decide, by decide, ?_⟩
  intro h
  have : (500 : ℚ) = 1000 := Option.some.inj h
  norm_num at this

/-- Claim C6 as amended: on any actually-attempted fetch (the cache
guard not taken) that fails — non-200 status, network exception, or a
body that fails to parse as JSON — the fetch returns `false` and the
snapshot is left completely unchanged; but a 200 response with a
parseable JSON body always succeeds and replaces the snapshot with
`fetched_at` set to the current time, even when the `bot_token` /
`chat_id` keys are missing (the fields then become absent). -/
theorem config_fetch_error_semantics (st : ConfigState) (t : ℚ)
    (force : Bool) (net : FetchOutcome)
    (hmiss : configCacheFresh st t force = false) :
    (∀ s j, net = FetchOutcome.resp s j → s ≠ 200 →
      fetch_bot_configuration st t force net = (false, st, true)) ∧
    (net = FetchOutcome.resp 200 Option.none →
      fetch_bot_configuration st t force net = (false, st, true)) ∧
    (net = FetchOutcome.exc →
      fetch_bot_configuration st t force net = (false, st, true)) ∧
    (∀ j, net = FetchOutcome.resp 200 (some j) →
      fetch_bot_configuration st t force net =
        (true,
         { BOT_TOKEN := j.bot_token.getD PyVal.none,
           AUTHORIZED_CHAT_ID := j.chat_id.getD PyVal.none,
           LAST_CONFIG_FETCH := some t }, true)) := by
  refine ⟨?_, ?_, ?_, ?_⟩
  · rintro s j rfl hs
    have hbeq : (s == 200) = false := by simpa using hs
    simp [fetch_bot_configuration, hmiss, hbeq]
  · rintro rfl
    simp [fetch_bot_configuration, hmiss]
  · rintro rfl
    simp [fetch_bot_configuration, hmiss]
  · rintro j rfl
    simp [fetch_bot_configuration, hmiss]

theorem config_fetch_error_semantics_witness :
    fetch_bot_configuration stalePrior 1000 true FetchOutcome.exc =
      (false, stalePrior, true) ∧
    fetch_bot_configuration stalePrior 1000 true
        (FetchOutcome.resp 503 Option.none) = (false, stalePrior, true) :=
  ⟨(config_fetch_error_semantics stalePrior 1000 true FetchOutcome.exc
      (by decide)).2.2.1 rfl,
   (config_fetch_error_semantics stalePrior 1000 true
      (FetchOutcome.resp 503 Option.none) (by decide)).1
      503 Option.none rfl (by decide)⟩

/-- Claim C7: with a snapshot fetched at `t0` (a positive time, as
`time.time()` always is) and ttl 300, a non-forced call at `t0+299`
returns the cached snapshot unchanged with no network call, a non-forced
call at `t0+301` issues a network request, and a forced call always
issues a network request regardless of age. -/
theorem config_cache_ttl (st : ConfigState) (t0 : ℚ) (net : FetchOutcome)
    (h0 : 0 < t0) (hlast : st.LAST_CONFIG_FETCH = some t0) :
    fetch_bot_configuration st (t0 + 299) false net = (true, st, false) ∧
    (fetch_bot_configuration st (t0 + 301) false net).2.2 = true ∧
    (∀ t, (fetch_bot_configuration st t true net).2.2 = true) := by
  refine ⟨?_, ?_, ?_⟩
  · have hc : configCacheFresh st (t0 + 299) false = true := by
      simp only [configCacheFresh, hlast, timeTruthy, Bool.not_false,
        Bool.true_and, Option.getD_some, Bool.and_eq_true, bne_iff_ne, ne_eq,
        decide_eq_true_eq]
      refine ⟨h0.ne', ?_⟩
      rw [CONFIG_CACHE_DURATION]
      norm_num
    simp [fetch_bot_configuration, hc]
  · apply fetch_networked
    have hd : decide (t0 + 301 - (st.LAST_CONFIG_FETCH.getD 0) <
        CONFIG_CACHE_DURATION) = false := by
      simp only [hlast, Option.getD_some, decide_eq_false_iff_not,
        CONFIG_CACHE_DURATION]
      norm_num
    simp [configCacheFresh, hd]
  · intro t
    apply fetch_networked
    simp [configCacheFresh]

theorem config_cache_ttl_witness :
    fetch_bot_configuration stalePrior (500 + 299) false FetchOutcome.exc =
      (true, stalePrior, false) ∧
    (fetch_bot_configuration stalePrior (500 + 301) false FetchOutcome.exc).2.2 =
      true ∧
    (fetch_bot_configuration stalePrior 700 true FetchOutcome.exc).2.2 = true := by
  obtain ⟨h1, h2, h3⟩ :=
    config_cache_ttl stalePrior 500 FetchOutcome.exc (by norm_num) rfl
  exact ⟨h1, h2, h3 700⟩

/-! ## The webhook handler, `message` branch

`webhook` first forces a configuration fetch (500 on failure), rebuilds
the bot from the fresh globals, applies an in-memory chat-migration
update when the message carries `migrate_to_chat_id` (mutating both the
global `AUTHORIZED_CHAT_ID` and `bot.authorized_chat_id`, which is
modelled by building the bot from the post-migration state), and then
routes: a text starting with `/` whose first whitespace-separated word
is `/start` goes to `process_start_command`, other commands are ignored,
and any other text goes to `process_message`. -/

structure WebhookMessage where
  chat_id : PyVal
  text : Option (List Char)
  migrate_to_chat_id : Option PyVal
deriving DecidableEq

/-- The module-level constants read from the environment. -/
structure Env where
  API_ENDPOINT : List Char
  API_KEY : List Char
  VENDOR_ID : Int
deriving DecidableEq

/-- The `/start` welcome reply (`welcome_text.strip()`). -/
def welcomeMsg : List Char :=
  ("🤖 **Transaction Bot Started!**\n\n**What I can extract:**\n• Reference numbers (UPI Ref no 690518190930)\n• Money amounts (₹1,234.56, Rs 2.00, INR 1000)\n\n**Example SMS:**\n\"Dear Merchant, your VPA 7483185815@kbl is credited for Rs.2.00 on 12-09-25 and debited from a/c no. XX0076 (UPI Ref no 690518190930) -Karnataka Bank\"\n\nJust send me any message with transaction details!").toList

/-- `TransactionBot.process_start_command`. -/
def process_start_command {J : Type} (bot : TransactionBot)
    (chat_id : PyVal) : List (BotEvent J) :=
  if !(is_authorized_chat bot.authorized_chat_id chat_id) then []
  else [BotEvent.sendMessage chat_id welcomeMsg]

/-- `message['text'].split()[0]` for a text that starts with `/`. -/
def firstWord (t : List Char) : List Char :=
  t.takeWhile (fun c => !isWs c)

/-- The command / plain-text routing of the webhook `message` branch. -/
def webhook_dispatch {J : Type} (bot : TransactionBot)
    (msg : WebhookMessage) (outcome : HttpOutcome J) : List (BotEvent J) :=
  match msg.text with
  | some t =>
    if t.head? = some '/' then
      if firstWord t = "/start".toList then
        process_start_command bot msg.chat_id
      else []
    else process_message bot { text := t, chat_id := msg.chat_id } outcome
  | Option.none => []

/-- The `webhook` handler restricted to updates carrying a `message`
key: returns the new global configuration state, the emitted bot events,
and the HTTP status answered to the transport (500 when the forced
configuration fetch fails, 200 otherwise). -/
def webhook_message {J : Type} (env : Env) (st : ConfigState) (now : ℚ)
    (net : FetchOutcome) (outcome : HttpOutcome J) (msg : WebhookMessage) :
    ConfigState × List (BotEvent J) × Nat :=
  let fr := fetch_bot_configuration st now true net
  if !fr.1 then (fr.2.1, [], 500)
  else
    let st1 := fr.2.1
    let st2 := match msg.migrate_to_chat_id with
      | some new_chat_id => { st1 with AUTHORIZED_CHAT_ID := new_chat_id }
      | Option.none => st1
    let bot : TransactionBot :=
      { token := st2.BOT_TOKEN, api_endpoint := env.API_ENDPOINT,
        api_key := env.API_KEY, vendor_id := env.VENDOR_ID,
        authorized_chat_id := st2.AUTHORIZED_CHAT_ID }
    (st2, webhook_dispatch bot msg outcome, 200)

/-- Claim C9: when an inbound event carries a `migrate_to_chat_id` (and
the forced fetch that precedes all processing succeeded), the in-memory
authorized chat id is updated to the new value before authorization is
evaluated for that same event — the dispatch runs with a bot whose
authorized id is the migrated value, and the post-event state carries
it; the value persists through any later event whose fetch fails (state
unchanged), and is overwritten by the next successful configuration
fetch (which installs the fetched `chat_id` whenever the later event
carries no migration). -/
theorem migration_updates_authorization {J : Type} (env : Env)
    (st : ConfigState) (now : ℚ) (net : FetchOutcome)
    (outcome : HttpOutcome J) (msg : WebhookMessage) :
    (∀ m, msg.migrate_to_chat_id = some m →
      (fetch_bot_configuration st now true net).1 = true →
      (webhook_message env st now net outcome msg).1.AUTHORIZED_CHAT_ID = m ∧
      (webhook_message env st now net outcome msg).2.1 =
        webhook_dispatch
          { token := (fetch_bot_configuration st now true net).2.1.BOT_TOKEN,
            api_endpoint := env.API_ENDPOINT, api_key := env.API_KEY,
            vendor_id := env.VENDOR_ID, authorized_chat_id := m }
          msg outcome) ∧
    ((fetch_bot_configuration st now true net).1 = false →
      webhook_message env st now net outcome msg = (st, [], 500)) ∧
    (∀ j, net = FetchOutcome.resp 200 (some j) →
      msg.migrate_to_chat_id = Option.none →
      (webhook_message env st now net outcome msg).1.AUTHORIZED_CHAT_ID =
        j.chat_id.getD PyVal.none) := by
  refine ⟨?_, ?_, ?_⟩
  · intro m hm hok
    constructor
    · simp [webhook_message, hok, hm]
    · simp [webhook_message, hok, hm]
  · intro hfail
    have h2 := fetch_fail_unchanged st now true net hfail
    simp [webhook_message, hfail, h2]
  · rintro j rfl hm
    have hforce : configCacheFresh st now true = false := by
      simp [configCacheFresh]
    simp [webhook_message, fetch_bot_configuration, hforce, hm]

def sampleEnv : Env := { API_ENDPOINT := [], API_KEY := [], VENDOR_ID := 3 }

def migratingMsg : WebhookMessage :=
  { chat_id := PyVal.int 5, text := Option.none,
    migrate_to_chat_id := some (PyVal.int 777) }

def plainMsg : WebhookMessage :=
  { chat_id := PyVal.int 5, text := Option.none,
    migrate_to_chat_id := Option.none }

def freshConfig : FetchOutcome :=
  FetchOutcome.resp 200
    (some { bot_token := some (PyVal.str "tok2"), chat_id := some (PyVal.int 99) })

theorem migration_updates_authorization_witness :
    ((webhook_message sampleEnv stalePrior 1000 freshConfig
        (HttpOutcome.timeout (J := Unit)) migratingMsg).1.AUTHORIZED_CHAT_ID =
      PyVal.int 777 ∧
     (webhook_message sampleEnv stalePrior 1000 freshConfig
        (HttpOutcome.timeout (J := Unit)) migratingMsg).2.1 =
      webhook_dispatch
        { token := (fetch_bot_configuration stalePrior 1000 true freshConfig).2.1.BOT_TOKEN,
          api_endpoint := sampleEnv.API_ENDPOINT, api_key := sampleEnv.API_KEY,
          vendor_id := sampleEnv.VENDOR_ID,
          authorized_chat_id := PyVal.int 777 }
        migratingMsg (HttpOutcome.timeout (J := Unit))) ∧
    webhook_message sampleEnv stalePrior 1000 FetchOutcome.exc
        (HttpOutcome.timeout (J := Unit)) plainMsg = (stalePrior, [], 500) ∧
    (webhook_message sampleEnv stalePrior 1000 freshConfig
        (HttpOutcome.timeout (J := Unit)) plainMsg).1.AUTHORIZED_CHAT_ID =
      PyVal.int 99 :=
  ⟨(migration_updates_authorization sampleEnv stalePrior 1000 freshConfig
      (HttpOutcome.timeout (J := Unit)) migratingMsg).1
      (PyVal.int 777) rfl (by decide),
   (migration_updates_authorization sampleEnv stalePrior 1000 FetchOutcome.exc
      (HttpOutcome.timeout (J := Unit)) plainMsg).2.1 (by decide),
   (migration_updates_authorization sampleEnv stalePrior 1000 freshConfig
      (HttpOutcome.timeout (J := Unit)) plainMsg).2.2
      { bot_token := some (PyVal.str "tok2"), chat_id := some (PyVal.int 99) }
      rfl rfl⟩

end Ztake
